import Mathlib

/-!
Verification development for the AgentTime backend (`server/index.js`).

The agent execution loop (`POST /agent/execute`) and the tool executor
(`executeTool`) are embedded shallowly.  External collaborators — the
googleapis client (Gmail / Calendar), `Buffer` base64 codecs,
`JSON.stringify`, the wall clock and the host time zone — are modelled as
an explicit environment of functions (`Env`); provider calls that may
reject return `Except String` values, mirroring thrown exceptions from
awaited calls.  Event timestamps (`new Date().toISOString()` on each
emitted event) are dropped: they carry wall-clock time only and no claim
depends on them.
-/

/-- JavaScript `x || d` on an optional numeric argument: `undefined` and
`0` are falsy. -/
def jsOrNat (x : Option Nat) (d : Nat) : Nat :=
  match x with
  | some n => if n = 0 then d else n
  | none => d

/-- JavaScript `x || d` on an optional string argument: `undefined` and
`""` are falsy. -/
def jsOrStr (x : Option String) (d : String) : String :=
  match x with
  | some s => if s = "" then d else s
  | none => d

/-- JavaScript truthiness of an optional string: collapses `""` to
`none` so that `if (s)` tests translate to an `Option` match. -/
def jsStr (x : Option String) : Option String :=
  match x with
  | some s => if s = "" then none else some s
  | none => none

/-- JavaScript template interpolation of a possibly-`undefined` string
value: `undefined` prints as `"undefined"`. -/
def jsShow (x : Option String) : String :=
  match x with
  | some s => s
  | none => "undefined"

/-- JavaScript `s.substring(0, n)`. -/
def jsSubstring (s : String) (n : Nat) : String :=
  String.mk (s.data.take n)

/-- One property of a tool input schema (`properties` entry). -/
structure SchemaProp where
  name : String
  ptype : String
  description : String
  enumVals : Option (List String) := none
  itemsType : Option String := none
deriving DecidableEq, Repr

/-- A tool's `input_schema`. -/
structure InputSchema where
  properties : List SchemaProp
  required : List String
deriving DecidableEq, Repr

/-- An entry of the static tool catalog (`const tools = [...]`). -/
structure ToolSpec where
  name : String
  description : String
  input_schema : InputSchema
deriving DecidableEq, Repr

/-- The static tool registry `tools` from `server/index.js`. -/
def tools : List ToolSpec :=
  [ { name := "get_emails",
      description := "Retrieve emails from Gmail inbox. Can filter by query.",
      input_schema :=
        { properties :=
            [ { name := "query", ptype := "string",
                description := "Gmail search query (e.g., \"is:unread\", \"from:someone@email.com\")" },
              { name := "maxResults", ptype := "number",
                description := "Maximum number of emails to retrieve (default 10)" } ],
          required := [] } },
    { name := "send_email",
      description := "Send an email via Gmail",
      input_schema :=
        { properties :=
            [ { name := "to", ptype := "string", description := "Recipient email address" },
              { name := "subject", ptype := "string", description := "Email subject line" },
              { name := "body", ptype := "string", description := "Email body content" } ],
          required := ["to", "subject", "body"] } },
    { name := "log_progress",
      description := "Log progress or status update for the current task",
      input_schema :=
        { properties :=
            [ { name := "message", ptype := "string", description := "Progress message to log" },
              { name := "type", ptype := "string",
                description := "Type of log message",
                enumVals := some ["info", "success", "warning", "error"] } ],
          required := ["message"] } },
    { name := "get_calendar_events",
      description := "Retrieve events from Google Calendar. Can specify time range and calendar.",
      input_schema :=
        { properties :=
            [ { name := "timeMin", ptype := "string",
                description := "Start time for events (ISO 8601 format, e.g., \"2024-01-15T00:00:00Z\"). Defaults to now." },
              { name := "timeMax", ptype := "string",
                description := "End time for events (ISO 8601 format). Defaults to 7 days from now." },
              { name := "maxResults", ptype := "number",
                description := "Maximum number of events to retrieve (default 10)" },
              { name := "calendarId", ptype := "string",
                description := "Calendar ID to query (default \"primary\")" } ],
          required := [] } },
    { name := "create_calendar_event",
      description := "Create a new event on Google Calendar",
      input_schema :=
        { properties :=
            [ { name := "summary", ptype := "string", description := "Event title/summary" },
              { name := "description", ptype := "string", description := "Event description" },
              { name := "startTime", ptype := "string",
                description := "Start time (ISO 8601 format, e.g., \"2024-01-15T10:00:00-08:00\")" },
              { name := "endTime", ptype := "string", description := "End time (ISO 8601 format)" },
              { name := "location", ptype := "string", description := "Event location (optional)" },
              { name := "attendees", ptype := "array",
                description := "List of attendee email addresses (optional)",
                itemsType := some "string" } ],
          required := ["summary", "startTime", "endTime"] } } ]

/-- The structured arguments of a tool invocation (`block.input`): every
field the five handlers read, each optional since the model may omit it. -/
structure ToolInput where
  query : Option String := none
  maxResults : Option Nat := none
  toAddr : Option String := none
  subject : Option String := none
  body : Option String := none
  message : Option String := none
  type : Option String := none
  timeMin : Option String := none
  timeMax : Option String := none
  calendarId : Option String := none
  summary : Option String := none
  description : Option String := none
  location : Option String := none
  startTime : Option String := none
  endTime : Option String := none
  attendees : Option (List String) := none
deriving DecidableEq, Repr

/-- A Gmail message header (`payload.headers[i]`). -/
structure GmailHeader where
  name : String
  value : String
deriving DecidableEq, Repr

/-- A MIME part of a Gmail message (`payload.parts[i]`); `bodyData`
collapses `part.body?.data`. -/
structure GmailPayloadPart where
  mimeType : String
  bodyData : Option String
deriving DecidableEq, Repr

/-- The fields of `gmail.users.messages.get` responses that the handler
reads (`detail.data`): optional-chained accesses are collapsed into
`Option` fields. -/
structure GmailMessage where
  headers : Option (List GmailHeader)
  snippet : String
  bodyData : Option String
  parts : Option (List GmailPayloadPart)
deriving DecidableEq, Repr

/-- A hydrated email in the `get_emails` result set. -/
structure EmailOut where
  id : String
  subject : String
  fromAddr : String
  date : String
  snippet : String
  body : String
deriving DecidableEq, Repr

/-- `event.start` / `event.end` of a raw Google Calendar event. -/
structure RawEventTime where
  dateTime : Option String
  date : Option String
deriving DecidableEq, Repr

/-- A raw attendee of a Google Calendar event. -/
structure RawAttendee where
  email : Option String
  displayName : Option String
  responseStatus : Option String
deriving DecidableEq, Repr

/-- A raw Google Calendar event from `calendar.events.list`; the source
field `end` is a Lean keyword and is embedded as `endTime`. -/
structure RawCalEvent where
  id : Option String
  summary : Option String
  description : Option String
  location : Option String
  start : Option RawEventTime
  endTime : Option RawEventTime
  attendees : Option (List RawAttendee)
  htmlLink : Option String
deriving DecidableEq, Repr

/-- A flattened attendee in the `get_calendar_events` result set. -/
structure AttendeeOut where
  email : Option String
  name : Option String
  status : Option String
deriving DecidableEq, Repr

/-- A flattened event in the `get_calendar_events` result set; the source
field `end` is embedded as `endTime`. -/
structure CalEventOut where
  id : Option String
  summary : Option String
  description : Option String
  location : Option String
  start : Option String
  endTime : Option String
  attendees : Option (List AttendeeOut)
  htmlLink : Option String
deriving DecidableEq, Repr

/-- The `requestBody` object built for `calendar.events.insert`;
attendee objects `{email}` are carried as their email strings, and the
source field `end` is embedded as `endDateTime`/`endTimeZone`. -/
structure CalEventBody where
  summary : Option String
  description : Option String
  location : Option String
  startDateTime : Option String
  startTimeZone : String
  endDateTime : Option String
  endTimeZone : String
  attendees : Option (List String)
deriving DecidableEq, Repr

/-- The full `calendar.events.insert` call (calendar id, request body and
`sendUpdates` flag). -/
structure CalInsertReq where
  calendarId : String
  requestBody : CalEventBody
  sendUpdates : String
deriving DecidableEq, Repr

/-- The fields of the `calendar.events.insert` response that the handler
reads. -/
structure CalInsertResp where
  id : Option String
  htmlLink : Option String
  summary : Option String
  startDateTime : Option String
  endDateTime : Option String
deriving DecidableEq, Repr

/-- The `calendar.events.list` call the handler issues. -/
structure CalListArgs where
  calendarId : String
  timeMin : String
  timeMax : String
  maxResults : Nat
  singleEvents : Bool
  orderBy : String
deriving DecidableEq, Repr

/-- The result payload of a tool handler, one constructor per return
shape of `executeTool`: `err` is the in-band domain error `{error}`,
the others carry the success shapes. -/
inductive ToolOutput where
  | err (msg : String)
  | emailsOut (emails : List EmailOut) (count : Nat)
  | sendOut (messageId : Option String)
  | logOut (message : Option String) (ltype : String)
  | eventsOut (events : List CalEventOut) (count : Nat)
  | createOut (eventId : Option String) (htmlLink : Option String) (summary : Option String)
      (start : Option String) (endTime : Option String)
deriving DecidableEq, Repr

/-- The external collaborators of the server, as an explicit
environment: token store membership, Gmail and Calendar providers (which
may reject, i.e. return `.error`), base64 codecs, `JSON.stringify`, the
clock and the host time zone. -/
structure Env where
  hasToken : String → Bool
  gmailList : Nat → String → Except String (Option (List String))
  gmailGet : String → Except String GmailMessage
  gmailSend : String → Except String (Option String)
  calList : CalListArgs → Except String (Option (List RawCalEvent))
  calInsert : CalInsertReq → Except String CalInsertResp
  b64decode : String → String
  b64encode : String → String
  stringify : ToolOutput → String
  nowIso : String
  weekFromNowIso : String
  timeZone : String

/-- The integration gate `!userEmail || !tokenStore.has(userEmail)`
(an empty principal string is falsy in JavaScript). -/
def notConnected (env : Env) (userEmail : Option String) : Bool :=
  match userEmail with
  | none => true
  | some u => u == "" || !env.hasToken u

/-- `getHeader` from the `get_emails` handler: case-insensitive header
lookup defaulting to the empty string. -/
def getHeader (headers : List GmailHeader) (name : String) : String :=
  match headers.find? (fun h => h.name.toLower == name.toLower) with
  | some h => h.value
  | none => ""

/-- Body extraction of the `get_emails` handler: the top-level
`payload.body.data` if (truthily) present, else the first `text/plain`
part's data, else the empty string. -/
def extractBody (env : Env) (m : GmailMessage) : String :=
  match jsStr m.bodyData with
  | some d => env.b64decode d
  | none =>
    match m.parts with
    | some ps =>
      match ps.find? (fun p => p.mimeType == "text/plain") with
      | some tp =>
        match jsStr tp.bodyData with
        | some d => env.b64decode d
        | none => ""
      | none => ""
    | none => ""

/-- The per-message hydration record built by the `get_emails` handler
from a fetched message: headers, snippet, and the body truncated by
`body.substring(0, 500)`. -/
def hydratePure (env : Env) (m : GmailMessage) (msgId : String) : EmailOut :=
  let headers := m.headers.getD []
  { id := msgId,
    subject := getHeader headers "Subject",
    fromAddr := getHeader headers "From",
    date := getHeader headers "Date",
    snippet := m.snippet,
    body := jsSubstring (extractBody env m) 500 }

/-- One `gmail.users.messages.get` call plus hydration; a provider
rejection propagates as an exception. -/
def hydrateMessage (env : Env) (msgId : String) : Except String EmailOut :=
  match env.gmailGet msgId with
  | .error e => .error e
  | .ok detail => .ok (hydratePure env detail msgId)

/-- `Promise.all(list.map f)`: sequences fallible per-element calls,
rejecting as soon as one rejects. -/
def exceptMap (f : α → Except String β) : List α → Except String (List β)
  | [] => .ok []
  | a :: as =>
    match f a with
    | .error e => .error e
    | .ok b =>
      match exceptMap f as with
      | .error e => .error e
      | .ok bs => .ok (b :: bs)

/-- The `get_emails` handler after the listing arguments are fixed:
list message ids, hydrate the first 5, and report `count` as the full
listing length. -/
def getEmailsCore (env : Env) (maxResults : Nat) (q : String) : Except String ToolOutput :=
  match env.gmailList maxResults q with
  | .error e => .error e
  | .ok listResponse =>
    let messages := listResponse.getD []
    match exceptMap (hydrateMessage env) (messages.take 5) with
    | .error e => .error e
    | .ok fullMessages => .ok (.emailsOut fullMessages messages.length)

/-- The `get_emails` handler: integration gate, then the listing with
defaulted `maxResults` (10) and query (`is:unread`). -/
def getEmails (env : Env) (toolInput : ToolInput) (userEmail : Option String) :
    Except String ToolOutput :=
  if notConnected env userEmail then
    .ok (.err "Gmail not connected. Please connect your Google account first.")
  else
    getEmailsCore env (jsOrNat toolInput.maxResults 10) (jsOrStr toolInput.query "is:unread")

/-- The `send_email` handler: integration gate, MIME assembly, base64url
encoding, then the send call. -/
def sendEmail (env : Env) (toolInput : ToolInput) (userEmail : Option String) :
    Except String ToolOutput :=
  if notConnected env userEmail then
    .ok (.err "Gmail not connected. Please connect your Google account first.")
  else
    let emailContent := String.intercalate "\n"
      [ "To: " ++ jsShow toolInput.toAddr,
        "Subject: " ++ jsShow toolInput.subject,
        "Content-Type: text/plain; charset=utf-8",
        "",
        jsShow toolInput.body ]
    let encodedEmail := ((env.b64encode emailContent).replace "+" "-").replace "/" "_"
    match env.gmailSend encodedEmail with
    | .error e => .error e
    | .ok response => .ok (.sendOut response)

/-- The `log_progress` handler: echoes its arguments, defaulting the
type to `info`. -/
def logProgress (toolInput : ToolInput) : Except String ToolOutput :=
  .ok (.logOut toolInput.message (jsOrStr toolInput.type "info"))

/-- `event.start?.dateTime || event.start?.date`. -/
def flattenTime (t : Option RawEventTime) : Option String :=
  match t with
  | some tt =>
    match jsStr tt.dateTime with
    | some d => some d
    | none => tt.date
  | none => none

/-- The per-event flattening of the `get_calendar_events` handler. -/
def mapRawEvent (e : RawCalEvent) : CalEventOut :=
  { id := e.id, summary := e.summary, description := e.description, location := e.location,
    start := flattenTime e.start, endTime := flattenTime e.endTime,
    attendees := e.attendees.map (fun l =>
      l.map (fun a => ⟨a.email, a.displayName, a.responseStatus⟩)),
    htmlLink := e.htmlLink }

/-- The `get_calendar_events` handler after its listing arguments are
fixed. -/
def getCalendarEventsCore (env : Env) (calendarId timeMin timeMax : String) (maxResults : Nat) :
    Except String ToolOutput :=
  match env.calList
    { calendarId := calendarId, timeMin := timeMin, timeMax := timeMax,
      maxResults := maxResults, singleEvents := true, orderBy := "startTime" } with
  | .error e => .error e
  | .ok response =>
    let events := (response.getD []).map mapRawEvent
    .ok (.eventsOut events events.length)

/-- The `get_calendar_events` handler: integration gate, then the
listing with defaults `primary`, `[now, now + 7 days]` and 10. -/
def getCalendarEvents (env : Env) (toolInput : ToolInput) (userEmail : Option String) :
    Except String ToolOutput :=
  if notConnected env userEmail then
    .ok (.err "Google Calendar not connected. Please connect your Google account first.")
  else
    getCalendarEventsCore env
      (jsOrStr toolInput.calendarId "primary")
      (jsOrStr toolInput.timeMin env.nowIso)
      (jsOrStr toolInput.timeMax env.weekFromNowIso)
      (jsOrNat toolInput.maxResults 10)

/-- The `calendar.events.insert` call built by the `create_calendar_event`
handler: attendees are attached only when a non-empty list was given,
while `sendUpdates` is `all` whenever the `attendees` argument is present
at all (`toolInput.attendees ? 'all' : 'none'`). -/
def calendarInsertRequest (env : Env) (toolInput : ToolInput) : CalInsertReq :=
  let event : CalEventBody :=
    { summary := toolInput.summary, description := toolInput.description,
      location := toolInput.location,
      startDateTime := toolInput.startTime, startTimeZone := env.timeZone,
      endDateTime := toolInput.endTime, endTimeZone := env.timeZone,
      attendees := none }
  let event :=
    match toolInput.attendees with
    | some l => if l.length > 0 then { event with attendees := some l } else event
    | none => event
  { calendarId := "primary",
    requestBody := event,
    sendUpdates := match toolInput.attendees with | some _ => "all" | none => "none" }

/-- The `create_calendar_event` handler: integration gate, request
assembly, insert call, response projection. -/
def createCalendarEvent (env : Env) (toolInput : ToolInput) (userEmail : Option String) :
    Except String ToolOutput :=
  if notConnected env userEmail then
    .ok (.err "Google Calendar not connected. Please connect your Google account first.")
  else
    match env.calInsert (calendarInsertRequest env toolInput) with
    | .error e => .error e
    | .ok response => .ok (.createOut response.id response.htmlLink response.summary
        response.startDateTime response.endDateTime)

/-- `executeTool` from `server/index.js`: dispatch by exact tool name;
an unknown name yields a domain error, not an exception. -/
def executeTool (env : Env) (toolName : String) (toolInput : ToolInput)
    (userEmail : Option String) : Except String ToolOutput :=
  match toolName with
  | "get_emails" => getEmails env toolInput userEmail
  | "send_email" => sendEmail env toolInput userEmail
  | "log_progress" => logProgress toolInput
  | "get_calendar_events" => getCalendarEvents env toolInput userEmail
  | "create_calendar_event" => createCalendarEvent env toolInput userEmail
  | _ => .ok (.err ("Unknown tool: " ++ toolName))

/-- A streamed execution event (`sendEvent`): a `log` record with message
and type, or the terminal `complete` record with the success flag and
optional error message. -/
inductive Event where
  | log (message : String) (ltype : String)
  | complete (success : Bool) (error : Option String)
deriving DecidableEq, Repr

/-- A content block of a model completion: a `text` segment or a
`tool_use` segment with its correlation id, tool name and arguments. -/
inductive Block where
  | text (s : String)
  | toolUse (id : String) (name : String) (input : ToolInput)
deriving DecidableEq, Repr

/-- Whether a block is a `tool_use` segment. -/
def isToolUseBlock : Block → Bool
  | .toolUse _ _ _ => true
  | .text _ => false

/-- A model completion: ordered content blocks plus the stop indicator. -/
structure ModelResponse where
  content : List Block
  stop_reason : String
deriving DecidableEq, Repr

/-- One tool result record pushed into `toolResults`: correlation id,
stringified payload, and the `is_error` flag set only on the catch path. -/
structure ToolResultRec where
  tool_use_id : String
  content : String
  is_error : Bool := false
deriving DecidableEq, Repr

/-- The content of a conversation turn: the literal task string, raw
assistant blocks, or collected tool results. -/
inductive MsgContent where
  | str (s : String)
  | blocks (bs : List Block)
  | results (rs : List ToolResultRec)
deriving DecidableEq, Repr

/-- A conversation turn (`messages[i]`). -/
structure Message where
  role : String
  content : MsgContent
deriving DecidableEq, Repr

/-- One `anthropic.messages.create` request: system directive, tool
catalog and conversation history (the model name and token limit are
fixed constants in the source and carry no information). -/
structure CompletionRequest where
  system : String
  tools : List ToolSpec
  messages : List Message
deriving DecidableEq, Repr

/-- The model provider collaborator: a completion request either yields
a response or rejects (an orchestration failure). -/
abbrev Oracle := CompletionRequest → Except String ModelResponse

/-- The extra success-summary `log` event(s) emitted after a tool call
returns, mirroring the `if/else if` chain over `block.name` and the
result shape; the trailing branch emits `Tool error: ...` when the
payload carries a (truthy) `error` field. -/
def toolSummaryEvents (toolName : String) (toolInput : ToolInput) (result : ToolOutput) :
    List Event :=
  if toolName = "log_progress" then
    [.log (toolInput.message.getD "") (jsOrStr toolInput.type "info")]
  else
    match toolName, result with
    | "get_emails", .emailsOut es c =>
      [.log ("Retrieved " ++ toString es.length ++ " emails (" ++ toString c ++
        " total matching)") "success"]
    | "send_email", .sendOut _ =>
      [.log "Email sent successfully" "success"]
    | "get_calendar_events", .eventsOut es _ =>
      [.log ("Retrieved " ++ toString es.length ++ " calendar events") "success"]
    | "create_calendar_event", .createOut _ _ s _ _ =>
      [.log ("Calendar event created: \"" ++ jsShow s ++ "\"") "success"]
    | _, .err m =>
      if m = "" then [] else [.log ("Tool error: " ++ m) "error"]
    | _, _ => []

/-- What one round accumulates while iterating over the completion's
content blocks: emitted events, collected tool results, and the
`hasToolUse` flag. -/
structure RoundOutcome where
  events : List Event
  results : List ToolResultRec
  hasToolUse : Bool
deriving DecidableEq, Repr

/-- Processing of a single content block: a text block is logged
verbatim; a tool_use block is announced, executed (its exception, if
any, caught and converted to an error-flagged result), summarised, and
its result recorded under its correlation id. -/
def processBlock (env : Env) (userEmail : Option String) (b : Block) : RoundOutcome :=
  match b with
  | .text s => { events := [.log s "info"], results := [], hasToolUse := false }
  | .toolUse bid bname binput =>
    let announce := Event.log ("Using tool: " ++ bname) "info"
    match executeTool env bname binput userEmail with
    | .ok result =>
      { events := announce :: toolSummaryEvents bname binput result,
        results := [{ tool_use_id := bid, content := env.stringify result }],
        hasToolUse := true }
    | .error e =>
      { events := [announce, .log ("Tool execution failed: " ++ e) "error"],
        results := [{ tool_use_id := bid, content := env.stringify (.err e), is_error := true }],
        hasToolUse := true }

/-- Processing of a whole completion's content, in emission order. -/
def processContent (env : Env) (userEmail : Option String) : List Block → RoundOutcome
  | [] => { events := [], results := [], hasToolUse := false }
  | b :: bs =>
    let r1 := processBlock env userEmail b
    let r2 := processContent env userEmail bs
    { events := r1.events ++ r2.events,
      results := r1.results ++ r2.results,
      hasToolUse := r1.hasToolUse || r2.hasToolUse }

/-- The fixed iteration cap of the agent loop. -/
def maxIterations : Nat := 10

/-- The outcome of running the while-loop: all events emitted inside the
loop, the completion requests issued (in order), the number of
iterations performed, and the orchestration failure, if the model call
rejected. -/
structure LoopResult where
  events : List Event
  requests : List CompletionRequest
  iterations : Nat
  failure : Option String
deriving DecidableEq, Repr

/-- The `continueLoop` decision taken at the bottom of each round
(`if (response.stop_reason === 'end_turn' && !hasToolUse) ... else if
(!hasToolUse) ...`). -/
def continueAfterRound (stop_reason : String) (hasToolUse : Bool) : Bool :=
  if stop_reason == "end_turn" && !hasToolUse then false
  else if !hasToolUse then false
  else true

/-- The agent while-loop, by remaining-iteration fuel (the source runs
`while (continueLoop && iterations < maxIterations)` and decides
`continueLoop` from the stop reason and `hasToolUse`; a model-call
rejection aborts the loop and surfaces as `failure`). -/
def runLoop (env : Env) (complete : Oracle) (sys : String) (userEmail : Option String) :
    Nat → List Message → LoopResult
  | 0, _ => { events := [], requests := [], iterations := 0, failure := none }
  | fuel + 1, msgs =>
    let req : CompletionRequest := ⟨sys, tools, msgs⟩
    match complete req with
    | .error e => { events := [], requests := [req], iterations := 1, failure := some e }
    | .ok response =>
      let round := processContent env userEmail response.content
      let msgs2 :=
        if round.hasToolUse then
          msgs ++ [⟨"assistant", .blocks response.content⟩, ⟨"user", .results round.results⟩]
        else msgs
      if continueAfterRound response.stop_reason round.hasToolUse then
        let rest := runLoop env complete sys userEmail fuel msgs2
        { events := round.events ++ rest.events,
          requests := req :: rest.requests,
          iterations := rest.iterations + 1,
          failure := rest.failure }
      else
        { events := round.events, requests := [req], iterations := 1, failure := none }

/-- The `Available integrations` status line, identical for Gmail and
Google Calendar (`userEmail ? 'Connected as ' + userEmail : 'Not
connected'`, with the empty string falsy). -/
def connectionStatus (userEmail : Option String) : String :=
  match jsStr userEmail with
  | some u => "Connected as " ++ u
  | none => "Not connected"

/-- The fixed text of the system directive before the agent name. -/
def sysPromptHead : String := "You are "

/-- The fixed text of the system directive between the agent name and
the agent role. -/
def sysPromptMid : String := ", an AI agent with the role of "

/-- The fixed text of the system directive between the agent role and
the Gmail connection status. -/
def sysPromptBody : String :=
  ".\nYou are executing a task scheduled by your user on their AgentTime calendar.\n\nYour job is to:\n1. Understand the task thoroughly\n2. Use the available tools to complete it\n3. Log your progress using the log_progress tool\n4. Be thorough but efficient\n\nAvailable integrations:\n- Gmail: "

/-- The fixed text of the system directive after the Google Calendar
connection status. -/
def sysPromptTail : String :=
  "\n\nAlways start by logging what you\x27re about to do, then execute, then log the result.\nIf an integration is not connected but needed, inform the user via a log message.\n\nWhen presenting results, use markdown formatting for better readability:\n- Use **bold** for important items\n- Use bullet points for lists\n- Use code blocks for technical content"

/-- Everything of the system directive after the agent role: fixed text
with the two integration status lines interpolated. -/
def sysPromptRest (userEmail : Option String) : String :=
  sysPromptBody ++ connectionStatus userEmail ++ "\n- Google Calendar: " ++
    connectionStatus userEmail ++ sysPromptTail

/-- The system directive built by `POST /agent/execute`: the fixed
template with the agent name, agent role and integration statuses
spliced in. -/
def systemPrompt (agentName agentRole : String) (userEmail : Option String) : String :=
  sysPromptHead ++ agentName ++ sysPromptMid ++ agentRole ++ sysPromptRest userEmail

/-- The seeded conversation history: a single user turn holding the
literal task text. -/
def initialMessages (task : String) : List Message :=
  [⟨"user", .str ("Execute this task: " ++ task)⟩]

/-- The full `/agent/execute` handler as an event sequence: the two
startup logs, the loop's events, then the terminal pair — on normal exit
a success log plus `complete` with `success=true`, on an orchestration
failure an error log plus `complete` with `success=false` and the
message (the `try/catch` around the whole body). -/
def executeTask (env : Env) (complete : Oracle) (task agentName agentRole : String)
    (userEmail : Option String) : List Event :=
  let startEvents : List Event :=
    [ .log "Starting task execution..." "info",
      .log ("Agent \"" ++ agentName ++ "\" (" ++ agentRole ++ ") is analyzing the task...")
        "info" ]
  let r := runLoop env complete (systemPrompt agentName agentRole userEmail) userEmail
    maxIterations (initialMessages task)
  match r.failure with
  | none =>
    startEvents ++ r.events ++ [.log "Task execution completed" "success", .complete true none]
  | some e =>
    startEvents ++ r.events ++ [.log ("Execution failed: " ++ e) "error",
      .complete false (some e)]

/-- The correlation ids of the `tool_use` blocks of a completion, in
order. -/
def toolUseIds : List Block → List String
  | [] => []
  | .toolUse bid _ _ :: bs => bid :: toolUseIds bs
  | .text _ :: bs => toolUseIds bs

/-- A trivial concrete environment for evaluating the embedding: no
token stored, every provider call succeeds with an empty payload. -/
def stubEnv : Env :=
  { hasToken := fun _ => false,
    gmailList := fun _ _ => .ok none,
    gmailGet := fun _ => .ok { headers := none, snippet := "", bodyData := none, parts := none },
    gmailSend := fun _ => .ok none,
    calList := fun _ => .ok none,
    calInsert := fun _ => .ok
      { id := none, htmlLink := none, summary := none, startDateTime := none, endDateTime := none },
    b64decode := fun s => s,
    b64encode := fun s => s,
    stringify := fun _ => "",
    nowIso := "2024-01-01T00:00:00Z",
    weekFromNowIso := "2024-01-08T00:00:00Z",
    timeZone := "UTC" }

/-- A concrete environment in which the principal `u@example.com` is
connected and the Gmail listing yields 7 message ids. -/
def sevenMailEnv : Env :=
  { stubEnv with
    hasToken := fun _ => true,
    gmailList := fun _ _ => .ok (some ["m1", "m2", "m3", "m4", "m5", "m6", "m7"]),
    gmailGet := fun mid => .ok
      { headers := some [⟨"Subject", "s-" ++ mid⟩], snippet := "sn", bodyData := some "hello",
        parts := none } }

/-- A concrete environment in which the principal is connected but the
Gmail listing call rejects, i.e. the handler raises. -/
def failingListEnv : Env :=
  { stubEnv with
    hasToken := fun _ => true,
    gmailList := fun _ _ => .error "network down" }

/-- A concrete environment in which the principal is connected, the
Gmail listing yields 6 message ids, and every fetched message has no
top-level body data and a single `text/html` part carrying (truthy)
body data. -/
def htmlMailEnv : Env :=
  { stubEnv with
    hasToken := fun _ => true,
    gmailList := fun _ _ => .ok (some ["h1", "h2", "h3", "h4", "h5", "h6"]),
    gmailGet := fun _ => .ok
      { headers := none, snippet := "", bodyData := none,
        parts := some [⟨"text/html", some "PGI+aGk8L2I+"⟩] } }

/-- A model-provider stub that requests a tool call on every round. -/
def alwaysToolOracle : Oracle :=
  fun _ => .ok
    { content := [.toolUse "tu1" "log_progress" { message := some "working" }],
      stop_reason := "tool_use" }

/-- A model-provider stub that ends its turn with plain text and stop
reason `end_turn`. -/
def noToolEndTurnOracle : Oracle :=
  fun _ => .ok { content := [.text "done"], stop_reason := "end_turn" }

/-- A model-provider stub that returns plain text with a stop reason
other than `end_turn` and no tool calls. -/
def noToolOtherStopOracle : Oracle :=
  fun _ => .ok { content := [.text "done"], stop_reason := "max_tokens" }

/-- A model-provider stub that requests a tool call yet reports stop
reason `end_turn`. -/
def endTurnToolOracle : Oracle :=
  fun _ => .ok
    { content := [.toolUse "tu9" "log_progress" { message := some "m" }],
      stop_reason := "end_turn" }

/-- A model-provider stub that asks for `get_emails` once (first round)
and then stops; used to evaluate executions end to end. -/
def oneGetEmailsOracle : Oracle :=
  fun req =>
    if req.messages.length ≤ 1 then
      .ok { content := [.toolUse "tuA" "get_emails" {}], stop_reason := "tool_use" }
    else
      .ok { content := [.text "finished"], stop_reason := "end_turn" }

/-- Whether an event is the terminal `complete` event. -/
def isCompletionEvent : Event → Bool
  | .complete _ _ => true
  | .log _ _ => false

/-- Number of `complete` events in an event sequence. -/
def completionCount (evs : List Event) : Nat :=
  (evs.filter isCompletionEvent).length

theorem completionCount_append (l1 l2 : List Event) :
    completionCount (l1 ++ l2) = completionCount l1 + completionCount l2 := by
  simp [completionCount, List.filter_append]

theorem completionCount_cons_log (m t : String) (l : List Event) :
    completionCount (.log m t :: l) = completionCount l := by
  simp [completionCount, List.filter_cons, isCompletionEvent]

theorem completionCount_toolSummaryEvents (n : String) (i : ToolInput) (r : ToolOutput) :
    completionCount (toolSummaryEvents n i r) = 0 := by
  unfold toolSummaryEvents
  split
  · rfl
  · split <;> try rfl
    split <;> rfl

theorem completionCount_processBlock (env : Env) (ue : Option String) (b : Block) :
    completionCount (processBlock env ue b).events = 0 := by
  cases b with
  | text s => rfl
  | toolUse bid bname binput =>
    cases h : executeTool env bname binput ue with
    | ok result =>
      simp only [processBlock, h]
      rw [completionCount_cons_log]
      exact completionCount_toolSummaryEvents bname binput result
    | error e =>
      simp only [processBlock, h]
      rfl

/-- `continueLoop` after a round is exactly `hasToolUse`: the stop
reason is irrelevant. -/
theorem continueAfterRound_eq_hasToolUse (stop_reason : String) (hasToolUse : Bool) :
    continueAfterRound stop_reason hasToolUse = hasToolUse := by
  cases hasToolUse <;> cases hs : stop_reason == "end_turn" <;>
    simp [continueAfterRound, hs]

theorem completionCount_processContent (env : Env) (ue : Option String) (bs : List Block) :
    completionCount (processContent env ue bs).events = 0 := by
  induction bs with
  | nil => rfl
  | cons b bs ih =>
    simp only [processContent]
    rw [completionCount_append, completionCount_processBlock, ih]

theorem completionCount_runLoop (env : Env) (complete : Oracle) (sys : String)
    (ue : Option String) : ∀ fuel msgs,
    completionCount (runLoop env complete sys ue fuel msgs).events = 0 := by
  intro fuel
  induction fuel with
  | zero => intro msgs; rfl
  | succ n ih =>
    intro msgs
    cases h : complete ⟨sys, tools, msgs⟩ with
    | error e => simp only [runLoop, h]; rfl
    | ok response =>
      simp only [runLoop, h, continueAfterRound_eq_hasToolUse]
      cases hh : (processContent env ue response.content).hasToolUse with
      | true =>
        simp only [if_true]
        rw [completionCount_append, completionCount_processContent, ih]
      | false =>
        simp only [Bool.false_eq_true, if_false]
        exact completionCount_processContent env ue response.content

theorem getLast?_append_pair (l : List Event) (x y : Event) :
    (l ++ [x, y]).getLast? = some y := by
  have h : l ++ [x, y] = (l ++ [x]) ++ [y] := by simp
  rw [h, List.getLast?_concat]

/-- Shared shape lemma for the `/agent/execute` event stream: the last
event is always `complete`, with `success=true` and no error exactly
when the loop did not surface an orchestration failure. -/
theorem executeTask_getLast (env : Env) (complete : Oracle) (task an ar : String)
    (ue : Option String) :
    (executeTask env complete task an ar ue).getLast? =
      some (Event.complete
        ((runLoop env complete (systemPrompt an ar ue) ue maxIterations
          (initialMessages task)).failure).isNone
        (runLoop env complete (systemPrompt an ar ue) ue maxIterations
          (initialMessages task)).failure) := by
  cases h : (runLoop env complete (systemPrompt an ar ue) ue maxIterations
      (initialMessages task)).failure with
  | none =>
    simp only [executeTask, h, Option.isNone_none]
    exact getLast?_append_pair _ _ _
  | some e =>
    simp only [executeTask, h, Option.isNone_some]
    exact getLast?_append_pair _ _ _

/-- Shared count lemma: the `/agent/execute` event stream holds exactly
one `complete` event on either path. -/
theorem executeTask_completionCount (env : Env) (complete : Oracle) (task an ar : String)
    (ue : Option String) :
    completionCount (executeTask env complete task an ar ue) = 1 := by
  cases h : (runLoop env complete (systemPrompt an ar ue) ue maxIterations
      (initialMessages task)).failure with
  | none =>
    simp only [executeTask, h]
    rw [completionCount_append, completionCount_append, completionCount_runLoop]
    rfl
  | some e =>
    simp only [executeTask, h]
    rw [completionCount_append, completionCount_append, completionCount_runLoop]
    rfl

/-- C1: for every execution started via `/agent/execute` — any
environment, model oracle (hence both the normal path and the
orchestration-failure path), task, agent identity and principal — the
emitted event sequence contains exactly one `complete` event, it is the
last event emitted, and its success flag is `true` exactly on the
no-failure path (with the failure message carried on the failure
path). -/
theorem C1_completion_exactly_once_and_last (env : Env) (complete : Oracle)
    (task agentName agentRole : String) (ue : Option String) :
    completionCount (executeTask env complete task agentName agentRole ue) = 1 ∧
    (executeTask env complete task agentName agentRole ue).getLast? =
      some (Event.complete
        ((runLoop env complete (systemPrompt agentName agentRole ue) ue maxIterations
          (initialMessages task)).failure).isNone
        (runLoop env complete (systemPrompt agentName agentRole ue) ue maxIterations
          (initialMessages task)).failure) :=
  ⟨executeTask_completionCount env complete task agentName agentRole ue,
   executeTask_getLast env complete task agentName agentRole ue⟩

theorem processBlock_hasToolUse (env : Env) (ue : Option String) (b : Block) :
    (processBlock env ue b).hasToolUse = isToolUseBlock b := by
  cases b with
  | text s => rfl
  | toolUse bid bname binput =>
    cases h : executeTool env bname binput ue <;> simp only [processBlock, h, isToolUseBlock]

theorem processContent_hasToolUse (env : Env) (ue : Option String) (bs : List Block) :
    (processContent env ue bs).hasToolUse = bs.any isToolUseBlock := by
  induction bs with
  | nil => rfl
  | cons b bs ih =>
    simp only [processContent, List.any_cons]
    rw [ih, processBlock_hasToolUse]

theorem runLoop_iterations_le (env : Env) (complete : Oracle) (sys : String)
    (ue : Option String) : ∀ fuel msgs,
    (runLoop env complete sys ue fuel msgs).iterations ≤ fuel := by
  intro fuel
  induction fuel with
  | zero => intro msgs; exact Nat.le_refl 0
  | succ n ih =>
    intro msgs
    cases h : complete ⟨sys, tools, msgs⟩ with
    | error e =>
      simp only [runLoop, h]
      exact Nat.succ_le_succ (Nat.zero_le n)
    | ok response =>
      simp only [runLoop, h, continueAfterRound_eq_hasToolUse]
      cases hh : (processContent env ue response.content).hasToolUse with
      | true =>
        simp only [if_true]
        exact Nat.succ_le_succ (ih _)
      | false =>
        simp only [Bool.false_eq_true, if_false]
        exact Nat.succ_le_succ (Nat.zero_le n)

theorem runLoop_alwaysTool (env : Env) (complete : Oracle) (sys : String) (ue : Option String)
    (H : ∀ req, ∃ resp, complete req = Except.ok resp ∧ resp.content.any isToolUseBlock = true) :
    ∀ fuel msgs, (runLoop env complete sys ue fuel msgs).iterations = fuel ∧
      (runLoop env complete sys ue fuel msgs).failure = none := by
  intro fuel
  induction fuel with
  | zero => intro msgs; exact ⟨rfl, rfl⟩
  | succ n ih =>
    intro msgs
    obtain ⟨resp, hok, htool⟩ := H ⟨sys, tools, msgs⟩
    have hh : (processContent env ue resp.content).hasToolUse = true := by
      rw [processContent_hasToolUse]; exact htool
    simp only [runLoop, hok, continueAfterRound_eq_hasToolUse, hh, if_true]
    exact ⟨by rw [(ih _).1], (ih _).2⟩

/-- C2: the loop never performs more than `maxIterations = 10` rounds,
and against a model-provider stub that requests a tool call on every
round it performs exactly 10 rounds and the execution still ends with a
`complete` event carrying `success=true`. -/
theorem C2_iteration_cap (env : Env) (complete : Oracle) (task agentName agentRole : String)
    (ue : Option String)
    (H : ∀ req, ∃ resp, complete req = Except.ok resp ∧ resp.content.any isToolUseBlock = true) :
    (∀ (env2 : Env) (complete2 : Oracle) (task2 an2 ar2 : String) (ue2 : Option String),
      (runLoop env2 complete2 (systemPrompt an2 ar2 ue2) ue2 maxIterations
        (initialMessages task2)).iterations ≤ maxIterations) ∧
    (runLoop env complete (systemPrompt agentName agentRole ue) ue maxIterations
      (initialMessages task)).iterations = maxIterations ∧
    (executeTask env complete task agentName agentRole ue).getLast? =
      some (Event.complete true none) := by
  refine ⟨fun env2 complete2 task2 an2 ar2 ue2 => runLoop_iterations_le env2 complete2 _ ue2 _ _,
    (runLoop_alwaysTool env complete _ ue H maxIterations (initialMessages task)).1, ?_⟩
  have hf := (runLoop_alwaysTool env complete (systemPrompt agentName agentRole ue) ue H
    maxIterations (initialMessages task)).2
  rw [executeTask_getLast, hf]
  rfl

theorem C2_iteration_cap_witness :
    (runLoop stubEnv alwaysToolOracle (systemPrompt "Ada" "researcher" none) none maxIterations
      (initialMessages "inbox sweep")).iterations = maxIterations ∧
    (executeTask stubEnv alwaysToolOracle "inbox sweep" "Ada" "researcher" none).getLast? =
      some (Event.complete true none) :=
  (C2_iteration_cap stubEnv alwaysToolOracle "inbox sweep" "Ada" "researcher" none
    (fun _ => ⟨_, rfl, rfl⟩)).2

theorem runLoop_iterations_pos (env : Env) (complete : Oracle) (sys : String)
    (ue : Option String) (fuel : Nat) (msgs : List Message) :
    1 ≤ (runLoop env complete sys ue (fuel + 1) msgs).iterations := by
  cases h : complete ⟨sys, tools, msgs⟩ with
  | error e =>
    simp only [runLoop, h]
    exact Nat.le_refl 1
  | ok response =>
    simp only [runLoop, h, continueAfterRound_eq_hasToolUse]
    cases hh : (processContent env ue response.content).hasToolUse with
    | true =>
      simp only [if_true]
      exact Nat.succ_le_succ (Nat.zero_le _)
    | false =>
      simp only [Bool.false_eq_true, if_false]
      exact Nat.le_refl 1

theorem runLoop_requests_cons (env : Env) (complete : Oracle) (sys : String)
    (ue : Option String) (fuel : Nat) (msgs : List Message) :
    ∃ t, (runLoop env complete sys ue (fuel + 1) msgs).requests =
      (⟨sys, tools, msgs⟩ : CompletionRequest) :: t := by
  cases h : complete ⟨sys, tools, msgs⟩ with
  | error e =>
    refine ⟨[], ?_⟩
    simp only [runLoop, h]
  | ok response =>
    cases hh : (processContent env ue response.content).hasToolUse with
    | false =>
      refine ⟨[], ?_⟩
      simp only [runLoop, h, continueAfterRound_eq_hasToolUse, hh, Bool.false_eq_true, if_false]
    | true =>
      exact ⟨(runLoop env complete sys ue fuel
          (msgs ++ [⟨"assistant", .blocks response.content⟩,
            ⟨"user", .results (processContent env ue response.content).results⟩])).requests, by
        simp only [runLoop, h, continueAfterRound_eq_hasToolUse, hh, if_true]⟩

theorem runLoop_requests_len_pos (env : Env) (complete : Oracle) (sys : String)
    (ue : Option String) (fuel : Nat) (msgs : List Message) :
    1 ≤ (runLoop env complete sys ue (fuel + 1) msgs).requests.length := by
  obtain ⟨t, ht⟩ := runLoop_requests_cons env complete sys ue fuel msgs
  rw [ht]
  exact Nat.succ_le_succ (Nat.zero_le _)

/-- C4: a round whose completion contains no tool-call blocks terminates
the loop — one iteration, no further model request — for every stop
reason (the statement never constrains `response.stop_reason`, so
`end_turn` and any other stop signal behave identically); a round whose
completion does contain a tool call continues to another iteration even
when the stop reason is `end_turn` (again: any stop reason). -/
theorem C4_no_toolcalls_terminates (env : Env) (complete : Oracle) (sys : String)
    (ue : Option String) (fuel : Nat) (msgs : List Message) (response : ModelResponse)
    (hresp : complete ⟨sys, tools, msgs⟩ = Except.ok response) :
    (response.content.any isToolUseBlock = false →
      (runLoop env complete sys ue (fuel + 1) msgs).iterations = 1 ∧
      (runLoop env complete sys ue (fuel + 1) msgs).requests =
        [(⟨sys, tools, msgs⟩ : CompletionRequest)]) ∧
    (response.content.any isToolUseBlock = true →
      2 ≤ (runLoop env complete sys ue (fuel + 2) msgs).iterations) := by
  constructor
  · intro h
    have hh : (processContent env ue response.content).hasToolUse = false := by
      rw [processContent_hasToolUse]; exact h
    simp only [runLoop, hresp, continueAfterRound_eq_hasToolUse, hh, Bool.false_eq_true, if_false]
    refine ⟨?_, ?_⟩ <;> first | rfl | trivial
  · intro h
    have hh : (processContent env ue response.content).hasToolUse = true := by
      rw [processContent_hasToolUse]; exact h
    rw [runLoop]
    simp only [hresp, continueAfterRound_eq_hasToolUse, hh, if_true]
    exact Nat.succ_le_succ (runLoop_iterations_pos env complete sys ue fuel _)

theorem C4_no_toolcalls_terminates_witness :
    ((runLoop stubEnv noToolEndTurnOracle "sys" none 1 []).iterations = 1 ∧
      (runLoop stubEnv noToolEndTurnOracle "sys" none 1 []).requests =
        [(⟨"sys", tools, []⟩ : CompletionRequest)]) ∧
    ((runLoop stubEnv noToolOtherStopOracle "sys" none 1 []).iterations = 1 ∧
      (runLoop stubEnv noToolOtherStopOracle "sys" none 1 []).requests =
        [(⟨"sys", tools, []⟩ : CompletionRequest)]) ∧
    2 ≤ (runLoop stubEnv endTurnToolOracle "sys" none 2 []).iterations :=
  ⟨(C4_no_toolcalls_terminates stubEnv noToolEndTurnOracle "sys" none 0 [] _ rfl).1 rfl,
   (C4_no_toolcalls_terminates stubEnv noToolOtherStopOracle "sys" none 0 [] _ rfl).1 rfl,
   (C4_no_toolcalls_terminates stubEnv endTurnToolOracle "sys" none 0 [] _ rfl).2 rfl⟩

theorem processContent_results_mem (env : Env) (ue : Option String) {b : Block}
    {bs : List Block} (hmem : b ∈ bs) {r : ToolResultRec}
    (hr : r ∈ (processBlock env ue b).results) :
    r ∈ (processContent env ue bs).results := by
  induction bs with
  | nil => cases hmem
  | cons a bs ih =>
    simp only [processContent, List.mem_append]
    rcases List.mem_cons.mp hmem with h1 | h2
    · exact Or.inl (h1 ▸ hr)
    · exact Or.inr (ih h2)

theorem processContent_events_mem (env : Env) (ue : Option String) {b : Block}
    {bs : List Block} (hmem : b ∈ bs) {ev : Event}
    (hr : ev ∈ (processBlock env ue b).events) :
    ev ∈ (processContent env ue bs).events := by
  induction bs with
  | nil => cases hmem
  | cons a bs ih =>
    simp only [processContent, List.mem_append]
    rcases List.mem_cons.mp hmem with h1 | h2
    · exact Or.inl (h1 ▸ hr)
    · exact Or.inr (ih h2)

/-- C3: when a tool call's handler raises (the executor invocation
rejects with message `emsg`), the exception stays inside the round: the
block's processing yields exactly the error-flagged `ToolResult` under
the call's correlation id plus an error `log` event, those appear in the
round outcome, and the loop — given remaining fuel — issues another
model-completion request instead of terminating the execution. -/
theorem C3_handler_exception_contained (env : Env) (complete : Oracle) (sys : String)
    (ue : Option String) (fuel : Nat) (msgs : List Message) (response : ModelResponse)
    (bid bname : String) (binput : ToolInput) (emsg : String)
    (hresp : complete ⟨sys, tools, msgs⟩ = Except.ok response)
    (hmem : Block.toolUse bid bname binput ∈ response.content)
    (herr : executeTool env bname binput ue = Except.error emsg) :
    processBlock env ue (Block.toolUse bid bname binput) =
      { events := [.log ("Using tool: " ++ bname) "info",
                   .log ("Tool execution failed: " ++ emsg) "error"],
        results := [{ tool_use_id := bid, content := env.stringify (.err emsg),
                      is_error := true }],
        hasToolUse := true } ∧
    ({ tool_use_id := bid, content := env.stringify (.err emsg), is_error := true } :
        ToolResultRec) ∈ (processContent env ue response.content).results ∧
    Event.log ("Tool execution failed: " ++ emsg) "error" ∈
      (processContent env ue response.content).events ∧
    2 ≤ (runLoop env complete sys ue (fuel + 2) msgs).requests.length := by
  have hpb : processBlock env ue (Block.toolUse bid bname binput) =
      { events := [.log ("Using tool: " ++ bname) "info",
                   .log ("Tool execution failed: " ++ emsg) "error"],
        results := [{ tool_use_id := bid, content := env.stringify (.err emsg),
                      is_error := true }],
        hasToolUse := true } := by
    simp only [processBlock, herr]
  refine ⟨hpb, ?_, ?_, ?_⟩
  · exact processContent_results_mem env ue hmem (by rw [hpb]; exact List.mem_singleton.mpr rfl)
  · refine processContent_events_mem env ue hmem ?_
    rw [hpb]
    exact List.mem_cons.mpr (Or.inr (List.mem_singleton.mpr rfl))
  · have hh : (processContent env ue response.content).hasToolUse = true := by
      rw [processContent_hasToolUse]
      exact List.any_eq_true.mpr ⟨_, hmem, rfl⟩
    have hlen := runLoop_requests_len_pos env complete sys ue fuel
      (msgs ++ [⟨"assistant", .blocks response.content⟩,
        ⟨"user", .results (processContent env ue response.content).results⟩])
    rw [runLoop]
    simp only [hresp, continueAfterRound_eq_hasToolUse, hh, if_true, List.length_cons]
    omega

theorem C3_handler_exception_contained_witness :
    ({ tool_use_id := "tuA", content := failingListEnv.stringify (.err "network down"),
       is_error := true } : ToolResultRec) ∈
      (processContent failingListEnv (some "u@example.com")
        [Block.toolUse "tuA" "get_emails" {}]).results ∧
    2 ≤ (runLoop failingListEnv oneGetEmailsOracle "sys" (some "u@example.com") 2
      (initialMessages "triage mail")).requests.length :=
  have h := C3_handler_exception_contained failingListEnv oneGetEmailsOracle "sys"
    (some "u@example.com") 0 (initialMessages "triage mail") _ "tuA" "get_emails" {}
    "network down" rfl (List.mem_singleton.mpr rfl) rfl
  ⟨h.2.1, h.2.2.2⟩

theorem toolUseIds_cons (b : Block) (bs : List Block) :
    toolUseIds (b :: bs) = toolUseIds [b] ++ toolUseIds bs := by
  cases b <;> simp [toolUseIds]

theorem processBlock_results_ids (env : Env) (ue : Option String) (b : Block) :
    (processBlock env ue b).results.map ToolResultRec.tool_use_id = toolUseIds [b] := by
  cases b with
  | text s => rfl
  | toolUse bid bname binput =>
    cases h : executeTool env bname binput ue <;>
      simp only [processBlock, h, toolUseIds, List.map_cons, List.map_nil]

theorem processContent_results_ids (env : Env) (ue : Option String) (bs : List Block) :
    (processContent env ue bs).results.map ToolResultRec.tool_use_id = toolUseIds bs := by
  induction bs with
  | nil => rfl
  | cons b bs ih =>
    simp only [processContent, List.map_append, ih]
    rw [processBlock_results_ids, ← toolUseIds_cons]

/-- C8: for a round's completion whose tool-call correlation ids are
distinct, the collected tool results carry exactly the correlation ids
of the `tool_use` blocks (in order, one result per call, so exactly one
result is tagged with each id), and the next model-completion request —
the second request the loop issues — already contains the appended
assistant turn and the user turn holding those results. -/
theorem C8_toolresult_roundtrip (env : Env) (complete : Oracle) (sys : String)
    (ue : Option String) (fuel : Nat) (msgs : List Message) (response : ModelResponse)
    (hresp : complete ⟨sys, tools, msgs⟩ = Except.ok response)
    (hnodup : (toolUseIds response.content).Nodup)
    (hhas : response.content.any isToolUseBlock = true) :
    (processContent env ue response.content).results.map ToolResultRec.tool_use_id =
      toolUseIds response.content ∧
    (∀ X ∈ toolUseIds response.content,
      ((processContent env ue response.content).results.filter
        (fun r => r.tool_use_id == X)).length = 1) ∧
    (runLoop env complete sys ue (fuel + 2) msgs).requests.take 2 =
      [(⟨sys, tools, msgs⟩ : CompletionRequest),
       ⟨sys, tools, msgs ++
         [⟨"assistant", .blocks response.content⟩,
          ⟨"user", .results (processContent env ue response.content).results⟩]⟩] := by
  refine ⟨processContent_results_ids env ue response.content, ?_, ?_⟩
  · intro X hX
    have h1 : (((processContent env ue response.content).results.map
          ToolResultRec.tool_use_id).filter (fun s => s == X)).length
        = ((processContent env ue response.content).results.filter
            (fun r => r.tool_use_id == X)).length := by
      rw [List.filter_map, List.length_map]
      rfl
    rw [← h1, processContent_results_ids env ue response.content,
      ← List.countP_eq_length_filter]
    exact List.count_eq_one_of_mem hnodup hX
  · have hh : (processContent env ue response.content).hasToolUse = true := by
      rw [processContent_hasToolUse]
      exact hhas
    obtain ⟨t, ht⟩ := runLoop_requests_cons env complete sys ue fuel
      (msgs ++ [⟨"assistant", .blocks response.content⟩,
        ⟨"user", .results (processContent env ue response.content).results⟩])
    rw [runLoop]
    simp only [hresp, continueAfterRound_eq_hasToolUse, hh, if_true]
    rw [ht]
    rfl

theorem C8_toolresult_roundtrip_witness :
    (processContent stubEnv none
      [Block.toolUse "tu1" "log_progress" { message := some "working" }]).results.map
        ToolResultRec.tool_use_id = ["tu1"] :=
  (C8_toolresult_roundtrip stubEnv alwaysToolOracle "sys" none 0 (initialMessages "plan day")
    _ rfl (by decide) rfl).1

theorem exceptMap_ok {α β : Type} (f : α → Except String β) (g : α → β) :
    ∀ l : List α, (∀ a ∈ l, f a = Except.ok (g a)) →
      exceptMap f l = Except.ok (l.map g) := by
  intro l
  induction l with
  | nil => intro _; rfl
  | cons a as ih =>
    intro h
    have h1 := h a (List.mem_cons_self a as)
    have h2 := ih (fun x hx => h x (List.mem_cons_of_mem a hx))
    simp only [exceptMap, h1, h2, List.map_cons]

theorem jsSubstring_length_le (s : String) (n : Nat) : (jsSubstring s n).length ≤ n := by
  simp only [jsSubstring, String.length, List.length_take]
  exact Nat.min_le_left n s.data.length

theorem getEmails_ungated (env : Env) (toolInput : ToolInput) (u : String)
    (hconn : notConnected env (some u) = false) :
    getEmails env toolInput (some u) =
      getEmailsCore env (jsOrNat toolInput.maxResults 10) (jsOrStr toolInput.query "is:unread") := by
  unfold getEmails
  rw [hconn]
  rfl

/-- C5: for an authenticated mail-read whose provider listing yields `N > 5`
message ids (each of the first five fetchable), the handler hydrates
exactly the first 5 messages — independent of the requested
`maxResults` — each hydrated body being the decoded body truncated by
`substring(0, 500)` (hence at most 500 characters), while the returned
`count` is `N`, not 5. -/
theorem C5_get_emails_cap (env : Env) (u : String) (toolInput : ToolInput)
    (ids : List String) (msgOf : String → GmailMessage)
    (hconn : notConnected env (some u) = false)
    (hlist : env.gmailList (jsOrNat toolInput.maxResults 10) (jsOrStr toolInput.query "is:unread")
      = Except.ok (some ids))
    (hget : ∀ mid ∈ ids.take 5, env.gmailGet mid = Except.ok (msgOf mid))
    (hN : 5 < ids.length) :
    executeTool env "get_emails" toolInput (some u) =
      Except.ok (.emailsOut ((ids.take 5).map (fun mid => hydratePure env (msgOf mid) mid))
        ids.length) ∧
    ((ids.take 5).map (fun mid => hydratePure env (msgOf mid) mid)).length = 5 ∧
    (∀ e ∈ (ids.take 5).map (fun mid => hydratePure env (msgOf mid) mid),
      e.body = jsSubstring (extractBody env (msgOf e.id)) 500 ∧ e.body.length ≤ 500) ∧
    ids.length ≠ 5 := by
  have hmapOk : exceptMap (hydrateMessage env) (ids.take 5) =
      Except.ok ((ids.take 5).map (fun mid => hydratePure env (msgOf mid) mid)) := by
    refine exceptMap_ok _ _ _ (fun mid hmid => ?_)
    simp only [hydrateMessage, hget mid hmid]
  refine ⟨?_, ?_, ?_, by omega⟩
  · show getEmails env toolInput (some u) = _
    rw [getEmails_ungated env toolInput u hconn]
    unfold getEmailsCore
    rw [hlist]
    simp only [Option.getD_some, hmapOk]
  · rw [List.length_map, List.length_take]
    omega
  · intro e he
    obtain ⟨mid, hmid, rfl⟩ := List.mem_map.mp he
    refine ⟨rfl, ?_⟩
    exact jsSubstring_length_le _ _

theorem C5_get_emails_cap_witness :
    ((["m1", "m2", "m3", "m4", "m5", "m6", "m7"].take 5).map
      (fun mid => hydratePure sevenMailEnv
        ({ headers := some [⟨"Subject", "s-" ++ mid⟩], snippet := "sn",
           bodyData := some "hello", parts := none } : GmailMessage) mid)).length = 5 ∧
    (["m1", "m2", "m3", "m4", "m5", "m6", "m7"] : List String).length ≠ 5 :=
  have h := C5_get_emails_cap sevenMailEnv "u@example.com" {}
    ["m1", "m2", "m3", "m4", "m5", "m6", "m7"]
    (fun mid => { headers := some [⟨"Subject", "s-" ++ mid⟩], snippet := "sn",
                  bodyData := some "hello", parts := none })
    rfl rfl (fun _ _ => rfl) (by decide)
  ⟨h.2.1, h.2.2.2⟩

/-- C5 counterexample: an authenticated mail-read whose listing yields 6
ids, where every message has no top-level body data and exactly one
text-capable part (`text/html`, with non-empty data), hydrates all five
fetched messages with an *empty* body — the handler falls back only to a
`text/plain` part, never to the first text-capable part, although that
part's data decodes to a non-empty string. -/
theorem C5_counterexample :
    executeTool htmlMailEnv "get_emails" {} (some "u@example.com") =
      Except.ok (ToolOutput.emailsOut
        [ { id := "h1", subject := "", fromAddr := "", date := "", snippet := "", body := "" },
          { id := "h2", subject := "", fromAddr := "", date := "", snippet := "", body := "" },
          { id := "h3", subject := "", fromAddr := "", date := "", snippet := "", body := "" },
          { id := "h4", subject := "", fromAddr := "", date := "", snippet := "", body := "" },
          { id := "h5", subject := "", fromAddr := "", date := "", snippet := "", body := "" } ]
        6) ∧
    htmlMailEnv.b64decode "PGI+aGk8L2I+" ≠ "" :=
  ⟨rfl, by decide⟩

/-- C6 counterexample: with an explicitly provided but *empty* attendees
list, no attendees are attached to the created event, yet the provider
call still requests notification delivery `all` (`toolInput.attendees ?
'all' : 'none'` is truthy on an empty array) — refuting that delivery
`all` is requested exactly when attendees are present on the event. -/
theorem C6_counterexample :
    (calendarInsertRequest stubEnv { attendees := some [] }).requestBody.attendees = none ∧
    (calendarInsertRequest stubEnv { attendees := some [] }).sendUpdates = "all" :=
  ⟨rfl, rfl⟩

/-- C6 amended: attendees are attached to the insert request exactly
when a non-empty attendees list is provided, while `sendUpdates` is
`all` exactly when the attendees argument is present at all (even as an
empty list) — in particular `none` when the argument is absent and
`all` together with the attached attendees for a non-empty list. -/
theorem C6_attendees_and_notifications (env : Env) (toolInput : ToolInput) :
    ((calendarInsertRequest env toolInput).requestBody.attendees ≠ none ↔
      ∃ l, toolInput.attendees = some l ∧ l ≠ []) ∧
    ((calendarInsertRequest env toolInput).sendUpdates = "all" ↔
      toolInput.attendees ≠ none) ∧
    (toolInput.attendees = none →
      (calendarInsertRequest env toolInput).requestBody.attendees = none ∧
      (calendarInsertRequest env toolInput).sendUpdates = "none") ∧
    (∀ l, toolInput.attendees = some l → l ≠ [] →
      (calendarInsertRequest env toolInput).requestBody.attendees = some l ∧
      (calendarInsertRequest env toolInput).sendUpdates = "all") := by
  cases h : toolInput.attendees with
  | none => simp [calendarInsertRequest, h]
  | some l =>
    cases l with
    | nil => simp [calendarInsertRequest, h]
    | cons x xs => simp [calendarInsertRequest, h]

theorem C6_attendees_and_notifications_witness :
    (calendarInsertRequest stubEnv { attendees := some ["ana@example.com"] }).requestBody.attendees
      = some ["ana@example.com"] ∧
    (calendarInsertRequest stubEnv { attendees := some ["ana@example.com"] }).sendUpdates = "all" :=
  (C6_attendees_and_notifications stubEnv { attendees := some ["ana@example.com"] }).2.2.2
    ["ana@example.com"] rfl (by decide)

/-- C7: each Google-integration tool, invoked while the acting principal
is absent or holds no stored credential, returns an in-band domain
error whose message is exactly `<Integration> not connected. Please
connect your Google account first.` (no exception), and any execution
under such a principal still ends in a terminal `complete` event. -/
theorem C7_unauthenticated_domain_error (env : Env) (ue : Option String)
    (toolInput : ToolInput) (toolName : String)
    (hname : toolName = "get_emails" ∨ toolName = "send_email" ∨
      toolName = "get_calendar_events" ∨ toolName = "create_calendar_event")
    (hgate : ue = none ∨ ∃ u, ue = some u ∧ env.hasToken u = false) :
    (∃ integ, (integ = "Gmail" ∨ integ = "Google Calendar") ∧
      executeTool env toolName toolInput ue =
        Except.ok (.err (integ ++ " not connected. Please connect your Google account first."))) ∧
    (∀ (complete : Oracle) (task agentName agentRole : String),
      ∃ s oe, (executeTask env complete task agentName agentRole ue).getLast? =
        some (Event.complete s oe)) := by
  have hnc : notConnected env ue = true := by
    rcases hgate with h | ⟨u, hu, ht⟩
    · rw [h]; rfl
    · rw [hu]
      simp [notConnected, ht]
  constructor
  · rcases hname with h | h | h | h <;> subst h
    · refine ⟨"Gmail", Or.inl rfl, ?_⟩
      show getEmails env toolInput ue = _
      unfold getEmails
      rw [hnc]
      rfl
    · refine ⟨"Gmail", Or.inl rfl, ?_⟩
      show sendEmail env toolInput ue = _
      unfold sendEmail
      rw [hnc]
      rfl
    · refine ⟨"Google Calendar", Or.inr rfl, ?_⟩
      show getCalendarEvents env toolInput ue = _
      unfold getCalendarEvents
      rw [hnc]
      rfl
    · refine ⟨"Google Calendar", Or.inr rfl, ?_⟩
      show createCalendarEvent env toolInput ue = _
      unfold createCalendarEvent
      rw [hnc]
      rfl
  · intro complete task agentName agentRole
    exact ⟨_, _, executeTask_getLast env complete task agentName agentRole ue⟩

theorem C7_unauthenticated_domain_error_witness :
    (∃ integ, (integ = "Gmail" ∨ integ = "Google Calendar") ∧
      executeTool stubEnv "get_emails" {} (some "u@example.com") =
        Except.ok (.err (integ ++ " not connected. Please connect your Google account first."))) ∧
    (∃ s oe, (executeTask stubEnv noToolEndTurnOracle "check mail" "Ava" "assistant"
        (some "u@example.com")).getLast? = some (Event.complete s oe)) :=
  have h := C7_unauthenticated_domain_error stubEnv (some "u@example.com") {} "get_emails"
    (Or.inl rfl) (Or.inr ⟨"u@example.com", rfl, rfl⟩)
  ⟨h.1, h.2 noToolEndTurnOracle "check mail" "Ava" "assistant"⟩

/-- C10: with an authenticated principal and the `query` and
`maxResults` arguments absent, the mail-read handler requests the
provider listing with query `is:unread` and a maximum of 10 message ids
— an unqualified mail-read lists unread mail only, not all mail. -/
theorem C10_default_unread_query (env : Env) (u : String) (toolInput : ToolInput)
    (hconn : notConnected env (some u) = false)
    (hq : toolInput.query = none) (hmax : toolInput.maxResults = none) :
    executeTool env "get_emails" toolInput (some u) = getEmailsCore env 10 "is:unread" := by
  show getEmails env toolInput (some u) = _
  rw [getEmails_ungated env toolInput u hconn, hq, hmax]
  rfl

theorem C10_default_unread_query_witness :
    executeTool sevenMailEnv "get_emails" {} (some "u@example.com") =
      getEmailsCore sevenMailEnv 10 "is:unread" :=
  C10_default_unread_query sevenMailEnv "u@example.com" {} rfl rfl rfl

/-- C9 counterexample: the system directive is a single fixed template
with the agent name and role spliced in verbatim; built for a role the
spec's heuristics would classify as research ("research") and for one
they would classify as calendar ("schedule"), it is the same template —
no role-derived tool-subset guidance is embedded in either. -/
theorem C9_counterexample :
    systemPrompt "Ava" "research" none =
      sysPromptHead ++ "Ava" ++ sysPromptMid ++ "research" ++ sysPromptRest none ∧
    systemPrompt "Ava" "schedule" none =
      sysPromptHead ++ "Ava" ++ sysPromptMid ++ "schedule" ++ sysPromptRest none :=
  ⟨rfl, rfl⟩

/-- C9 amended: the system directive names the agent's identity and role
and enumerates the Gmail and Google Calendar integrations with their
connection status, but contains no role-keyword guidance — it is the
fixed template around the spliced name/role — and every completion
request the loop issues carries the full, unfiltered tool registry
together with that directive. -/
theorem C9_directive_template_full_registry (agentName agentRole : String)
    (ue : Option String) :
    systemPrompt agentName agentRole ue =
      sysPromptHead ++ agentName ++ sysPromptMid ++ agentRole ++ sysPromptRest ue ∧
    sysPromptRest ue = sysPromptBody ++ connectionStatus ue ++ "\n- Google Calendar: " ++
      connectionStatus ue ++ sysPromptTail ∧
    (∀ (env : Env) (complete : Oracle) (fuel : Nat) (msgs : List Message)
      (req : CompletionRequest),
      req ∈ (runLoop env complete (systemPrompt agentName agentRole ue) ue fuel msgs).requests →
      req.tools = tools ∧ req.system = systemPrompt agentName agentRole ue) := by
  refine ⟨rfl, rfl, ?_⟩
  intro env complete fuel
  induction fuel with
  | zero => intro msgs req h; cases h
  | succ n ih =>
    intro msgs req h
    cases hc : complete ⟨systemPrompt agentName agentRole ue, tools, msgs⟩ with
    | error e =>
      rw [runLoop] at h
      simp only [hc] at h
      rcases List.mem_singleton.mp h with rfl
      exact ⟨rfl, rfl⟩
    | ok response =>
      rw [runLoop] at h
      simp only [hc, continueAfterRound_eq_hasToolUse] at h
      cases hh : (processContent env ue response.content).hasToolUse with
      | false =>
        simp only [hh, Bool.false_eq_true, if_false] at h
        rcases List.mem_singleton.mp h with rfl
        exact ⟨rfl, rfl⟩
      | true =>
        simp only [hh, if_true] at h
        rcases List.mem_cons.mp h with h1 | h2
        · subst h1
          exact ⟨rfl, rfl⟩
        · exact ih _ _ h2

theorem C9_directive_template_full_registry_witness :
    ((⟨systemPrompt "Ava" "research" none, tools, initialMessages "survey"⟩ :
        CompletionRequest).tools = tools) ∧
    ((⟨systemPrompt "Ava" "research" none, tools, initialMessages "survey"⟩ :
        CompletionRequest).system = systemPrompt "Ava" "research" none) :=
  (C9_directive_template_full_registry "Ava" "research" none).2.2 stubEnv noToolEndTurnOracle
    1 (initialMessages "survey") _ (by
      obtain ⟨t, ht⟩ := runLoop_requests_cons stubEnv noToolEndTurnOracle
        (systemPrompt "Ava" "research" none) none 0 (initialMessages "survey")
      rw [ht]
      exact List.mem_cons_self _ _)
